import Mathlib

/-!
# Verification of the Datoviz presenter (`src/presenter.c`)

Shallow embedding of the frame presentation coordinator: the per-surface
frame driver `dvz_presenter_frame`, the canvas lifecycle helpers
`_create_canvas` / `_delete_canvas`, the overlay-callback registry
(`dvz_presenter_gui`, `_gui_callback`), the command recording helper
`_record_command`, and the batch entry point `dvz_presenter_submit`.

Calls into external collaborators (vklite, the windowing client, the GUI
toolkit, the recorder, the transfer subsystem) are modelled as events
appended to an observable trace; state that those collaborators feed back
into the presenter (acquired swapchain status and image index, polled
window size, recreated framebuffer size) is supplied by an oracle
environment structure, mirroring the fact that `presenter.c` merely reads
those results.
-/

namespace Datoviz

/-- Swapchain object status as observed by `dvz_presenter_frame` after
`dvz_swapchain_acquire`.  The C code tests `DVZ_OBJECT_STATUS_INVALID` and
`DVZ_OBJECT_STATUS_NEED_RECREATE` and treats every other status as the
normal rendering path (`else` branch), so the embedding collapses all
remaining statuses into `valid`. -/
inductive ObjStatus where
  | invalid
  | needRecreate
  | valid
  deriving DecidableEq, Repr

/-- Identity of a GUI callback function.  `fps` stands for
`_gui_callback_fps`, `monitoring` for `_gui_callback_monitoring` (the two
built-in overlays registered by `_create_canvas`); `user n` stands for an
arbitrary user-supplied callback. -/
inductive CallbackRef where
  | fps
  | monitoring
  | user (n : Nat)
  deriving DecidableEq, Repr

/-- Whether a callback is one of the two built-in overlay callbacks. -/
def CallbackRef.isBuiltin : CallbackRef → Bool
  | .fps => true
  | .monitoring => true
  | .user _ => false

/-- Which command buffer is handed to `dvz_submit_commands`: the canvas's
main command buffer (`canvas->cmds`) or the GUI window's overlay buffer
(`gui_window->cmds`). -/
inductive CmdSource where
  | main
  | gui
  deriving DecidableEq, Repr

/-- Observable calls `presenter.c` makes into its collaborators, in program
order.  Each constructor corresponds to one external call site. -/
inductive Event where
  | fencesWait (slot : Nat)                -- dvz_fences_wait(fences, slot)
  | swapchainAcquire (frame : Nat)         -- dvz_swapchain_acquire(..., cur_frame, ...)
  | gpuWait                                -- dvz_gpu_wait(gpu)
  | windowPollSize                         -- dvz_window_poll_size(window)
  | canvasRecreate                         -- dvz_canvas_recreate(canvas)
  | semaphoresRecreate (which : Nat)       -- dvz_semaphores_recreate (0: img_available, 1: render_finished)
  | guiWindowResize (w h : Nat)            -- dvz_gui_window_resize(gui_window, w, h)
  | resizeEvent (windowId fbW fbH screenW screenH : Nat) -- dvz_client_event(WINDOW_RESIZE)
  | recorderSetDirty                       -- dvz_recorder_set_dirty(recorder)
  | cmdReset (imgIdx : Nat)                -- dvz_cmd_reset(cmds, img_idx)
  | blankCommands (imgIdx : Nat)           -- blank_commands(..., img_idx, NULL)
  | recorderSet (imgIdx : Nat)             -- dvz_recorder_set(recorder, rd, cmds, img_idx)
  | timeRecord (slot : Nat)                -- dvz_time(&frame_timestamps[slot])
  | fencesCopy (frame imgIdx : Nat)        -- dvz_fences_copy(fences, cur_frame, fences_bak, img_idx)
  | submitReset                            -- dvz_submit_reset(submit)
  | submitCommands (src : CmdSource)       -- dvz_submit_commands(submit, ...)
  | guiWindowBegin (imgIdx : Nat)          -- dvz_gui_window_begin(gui_window, img_idx)
  | callbackInvoke (cb : CallbackRef) (guiWindowId : Nat) (userData : Nat)
                                           -- payload->callback(gui_window, payload->user_data)
  | guiWindowEnd (imgIdx : Nat)            -- dvz_gui_window_end(gui_window, img_idx)
  | submitWaitSemaphores (frame : Nat)     -- dvz_submit_wait_semaphores(..., cur_frame)
  | submitSignalSemaphores (frame : Nat)   -- dvz_submit_signal_semaphores(..., cur_frame)
  | submitSend (imgIdx frame : Nat)        -- dvz_submit_send(submit, img_idx, fences, cur_frame)
  | swapchainPresent (frame : Nat)         -- dvz_swapchain_present(swapchain, 1, ..., cur_frame)
  | transfersFrame (imgIdx : Nat)          -- dvz_transfers_frame(&ctx->transfers, img_idx)
  | canvasDestroy                          -- dvz_canvas_destroy(canvas)
  | recorderDestroy                        -- dvz_recorder_destroy(canvas->recorder)
  | surfaceUntrack                         -- dvz_list_remove_pointer(prt->surfaces, &canvas->surface)
  | surfaceDestroy                         -- dvz_surface_destroy(host, canvas->surface)
  | guiWindowDestroy                       -- dvz_gui_window_destroy(gui_window)
  | windowDestroy                          -- dvz_window_destroy(window) -- never emitted by _delete_canvas
  | clientEventRequests                    -- dvz_client_event(prt->client, {REQUESTS, batch})
  deriving DecidableEq, Repr

/-- Modelled from the spec: `DVZ_MAX_FRAMES_IN_FLIGHT` is defined in
`vklite.h`, which is not under `src/`.  The spec fixes the number of
in-flight slots at construction (§3 Synchronization Set); the repository
sets this constant to 2. -/
def DVZ_MAX_FRAMES_IN_FLIGHT : Nat := 2

/-- Modelled from the spec: `DVZ_MAX_TIMESTAMPS`, the capacity of the
fixed-size ring buffer of recent frame times (§4.3 step 4, §9), is defined
outside `src/`; the repository sets it to 1024.  Only the modulo wraparound
matters here. -/
def DVZ_MAX_TIMESTAMPS : Nat := 1024

/-- Modelled from the spec: canvas flag bits from `datoviz_types.h`
(not under `src/`).  The overlay flag is a single bit; the frame-rate and
resource-usage sub-overlay flags each include the overlay bit, which is why
`_create_canvas` strips it back out with XOR before testing them. -/
def DVZ_CANVAS_FLAGS_IMGUI : Nat := 0x0001

/-- Modelled from the spec: frame-rate (FPS) sub-overlay flag; includes the
overlay bit. -/
def DVZ_CANVAS_FLAGS_FPS : Nat := 0x0003

/-- Modelled from the spec: resource-usage (monitor) sub-overlay flag;
includes the overlay bit. -/
def DVZ_CANVAS_FLAGS_MONITOR : Nat := 0x0005

/-- Modelled from the spec: fullscreen flag bit. -/
def DVZ_CANVAS_FLAGS_FULLSCREEN : Nat := 0x0008

/-- The per-canvas command recorder (`DvzRecorder`).  Modelled from the
spec for the parts living in `recorder.c` (not under `src/`): `count` is
the number of cached drawing operations; `dirty` is the per-swapchain-image
staleness bit vector (§3 Command Recorder). -/
structure Recorder where
  count : Nat
  dirty : List Bool
  deriving DecidableEq, Repr

/-- Modelled from the spec: `dvz_recorder_is_dirty(recorder, img_idx)`
reads the image's dirty bit (recorder.c is not under `src/`). -/
def dvz_recorder_is_dirty (rec : Recorder) (imgIdx : Nat) : Bool :=
  rec.dirty.getD imgIdx false

/-- Modelled from the spec: `dvz_recorder_set_dirty(recorder)` sets every
image's dirty bit (§3: "after any structural change ... every image's
dirty bit is set"). -/
def dvz_recorder_set_dirty (rec : Recorder) : Recorder :=
  { rec with dirty := rec.dirty.map (fun _ => true) }

/-- Modelled from the spec: `dvz_recorder_set(recorder, rd, cmds, img_idx)`
refills the command buffer and clears that image's dirty bit (§3: "a bit is
cleared only immediately after that image's command buffer has been
refilled"). -/
def dvz_recorder_set (rec : Recorder) (imgIdx : Nat) : Recorder :=
  { rec with dirty := rec.dirty.set imgIdx false }

/-- The canvas state read and written by `presenter.c`: framebuffer size,
current in-flight frame slot, swapchain status and acquired image index,
command-buffer count (`canvas->cmds.count`), the recorder, and the
frame-time ring index. -/
structure Canvas where
  width : Nat
  height : Nat
  curFrame : Nat
  status : ObjStatus
  imgIdx : Nat
  cmdsCount : Nat
  recorder : Recorder
  frameTimeIdx : Nat
  deriving DecidableEq, Repr

/-- The client window state read by `presenter.c`: logical/screen size
(`window->width/height`), refreshed by `dvz_window_poll_size`. -/
structure Window where
  width : Nat
  height : Nat
  deriving DecidableEq, Repr

/-- A GUI window (`DvzGuiWindow`); `id` is `gui_window->obj.id`, set to
the canvas id at creation. -/
structure GuiWindow where
  id : Nat
  deriving DecidableEq, Repr

/-- A registered overlay callback entry (`DvzGuiCallbackPayload`). -/
structure Payload where
  window_id : Nat
  callback : CallbackRef
  user_data : Nat
  deriving DecidableEq, Repr

/-- Presenter state touched by the embedded functions: the ordered GUI
callback list (`prt->callbacks`) and the id → GUI-window map
(`prt->maps.guis`, an association list). -/
structure Presenter where
  callbacks : List Payload
  guis : List (Nat × GuiWindow)
  deriving DecidableEq, Repr

/-- `dvz_map_get(prt->maps.guis, id)`: first entry with the given key, if
any. -/
def mapGet (m : List (Nat × GuiWindow)) (id : Nat) : Option GuiWindow :=
  (m.find? (fun kv => kv.1 == id)).map (fun kv => kv.2)

/-- Oracle results the frame driver reads back from collaborators during
one tick: swapchain status and image index after `dvz_swapchain_acquire`,
screen size after `dvz_window_poll_size`, framebuffer size stored in
`canvas->width/height` by `dvz_canvas_recreate`. -/
structure FrameEnv where
  acquiredStatus : ObjStatus
  acquiredImgIdx : Nat
  polledScreenW : Nat
  polledScreenH : Nat
  recreatedFbW : Nat
  recreatedFbH : Nat
  deriving DecidableEq, Repr

/-- `dvz_presenter_gui`: unconditionally appends a callback payload to
`prt->callbacks`. -/
def dvz_presenter_gui (prt : Presenter) (window_id : Nat) (callback : CallbackRef)
    (user_data : Nat) : Presenter :=
  { prt with
    callbacks := prt.callbacks ++ [{ window_id := window_id, callback := callback,
                                     user_data := user_data }] }

/-- `_record_command(rd, canvas, img_idx)`: if the recorder holds at least
one cached drawing operation, reset the image's command buffer and replay
the cache; otherwise reset it and record blank (clear/no-op) commands.
Both paths end with `dvz_recorder_set`, which clears the image's dirty
bit. -/
def _record_command (rec : Recorder) (imgIdx : Nat) : Recorder × List Event :=
  if rec.count > 0 then
    (dvz_recorder_set rec imgIdx, [Event.cmdReset imgIdx, Event.recorderSet imgIdx])
  else
    (dvz_recorder_set rec imgIdx,
     [Event.cmdReset imgIdx, Event.blankCommands imgIdx, Event.recorderSet imgIdx])

/-- The `for (uint32_t i = 0; i < cmds->count; i++) _record_command(rd, canvas, i);`
loop of the NEED_RECREATE branch: records images `0, 1, ..., n-1` in
order, threading the recorder state. -/
def recordAll (rec : Recorder) : Nat → Recorder × List Event
  | 0 => (rec, [])
  | n + 1 =>
    let r1 := recordAll rec n
    let r2 := _record_command r1.1 n
    (r2.1, r1.2 ++ r2.2)

/-- The callback iteration inside `_gui_callback`: walk `prt->callbacks`
in order and invoke exactly the payloads whose `window_id` equals the GUI
window's id, each with the GUI window and its own user data. -/
def guiInvokeLoop (callbacks : List Payload) (guiId : Nat) : List Event :=
  match callbacks with
  | [] => []
  | p :: rest =>
    (if p.window_id == guiId then [Event.callbackInvoke p.callback guiId p.user_data] else [])
      ++ guiInvokeLoop rest guiId

/-- `_gui_callback(prt, gui_window, submit, img_idx)`: begin overlay
recording for the image, invoke the matching callbacks, end recording, and
append the GUI command buffer to the submission.  (The early-return null
checks of the C function cannot fire at its single call site, where the
presenter, GUI window, submit and callback list are all non-null.) -/
def _gui_callback (callbacks : List Payload) (guiWindow : GuiWindow)
    (imgIdx : Nat) : List Event :=
  [Event.guiWindowBegin imgIdx]
    ++ guiInvokeLoop callbacks guiWindow.id
    ++ [Event.guiWindowEnd imgIdx, Event.submitCommands CmdSource.gui]

/-- Result of one tick of `dvz_presenter_frame`: updated canvas and window
state plus the trace of collaborator calls, in program order. -/
structure FrameResult where
  canvas : Canvas
  window : Window
  trace : List Event
  deriving DecidableEq, Repr

/-- `dvz_presenter_frame(prt, window_id)`.  The canvas and window are the
objects `dvz_renderer_canvas` / `id2window` resolve for `window_id`;
`env` carries the oracle results of this tick's collaborator calls.
Faithfully mirrors the C control flow: fence wait on slot
`(cur_frame + 1) % DVZ_MAX_FRAMES_IN_FLIGHT`, acquire, then one of the
INVALID / NEED_RECREATE / normal branches, with `dvz_transfers_frame`
reached only by the latter two (the INVALID branch returns early). -/
def dvz_presenter_frame (prt : Presenter) (windowId : Nat) (canvas : Canvas)
    (window : Window) (env : FrameEnv) : FrameResult :=
  let guiWindow := mapGet prt.guis windowId
  let pre : List Event :=
    [Event.fencesWait ((canvas.curFrame + 1) % DVZ_MAX_FRAMES_IN_FLIGHT),
     Event.swapchainAcquire canvas.curFrame]
  let canvas1 : Canvas :=
    { canvas with status := env.acquiredStatus, imgIdx := env.acquiredImgIdx }
  match env.acquiredStatus with
  | ObjStatus.invalid =>
    -- dvz_gpu_wait(gpu); return;  -- early return: no dvz_transfers_frame
    ⟨canvas1, window, pre ++ [Event.gpuWait]⟩
  | ObjStatus.needRecreate =>
    let window1 : Window := { width := env.polledScreenW, height := env.polledScreenH }
    let canvas2 : Canvas :=
      { canvas1 with width := env.recreatedFbW, height := env.recreatedFbH }
    let guiTrace : List Event :=
      match guiWindow with
      | some _ => [Event.guiWindowResize canvas2.width canvas2.height]
      | none => []
    let canvas3 : Canvas := { canvas2 with recorder := dvz_recorder_set_dirty canvas2.recorder }
    let rr := recordAll canvas3.recorder canvas3.cmdsCount
    let canvas4 : Canvas := { canvas3 with recorder := rr.1 }
    ⟨canvas4, window1,
      pre
        ++ [Event.gpuWait, Event.windowPollSize, Event.canvasRecreate,
            Event.semaphoresRecreate 0, Event.semaphoresRecreate 1]
        ++ guiTrace
        ++ [Event.resizeEvent windowId canvas2.width canvas2.height
              window1.width window1.height]
        ++ [Event.recorderSetDirty]
        ++ rr.2
        ++ [Event.transfersFrame canvas4.imgIdx]⟩
  | ObjStatus.valid =>
    let fidx := canvas1.frameTimeIdx % DVZ_MAX_TIMESTAMPS
    let canvas2 : Canvas := { canvas1 with frameTimeIdx := canvas1.frameTimeIdx + 1 }
    let rr :=
      if dvz_recorder_is_dirty canvas2.recorder canvas2.imgIdx then
        _record_command canvas2.recorder canvas2.imgIdx
      else
        (canvas2.recorder, [])
    let canvas3 : Canvas := { canvas2 with recorder := rr.1 }
    let guiTrace : List Event :=
      match guiWindow with
      | some g =>
        if prt.callbacks.length > 0 then
          _gui_callback prt.callbacks g canvas3.imgIdx
        else []
      | none => []
    let canvas4 : Canvas :=
      { canvas3 with curFrame := (canvas3.curFrame + 1) % DVZ_MAX_FRAMES_IN_FLIGHT }
    ⟨canvas4, window,
      pre
        ++ [Event.timeRecord fidx,
            Event.fencesCopy canvas2.curFrame canvas2.imgIdx]
        ++ rr.2
        ++ [Event.submitReset, Event.submitCommands CmdSource.main]
        ++ guiTrace
        ++ [Event.submitWaitSemaphores canvas3.curFrame,
            Event.submitSignalSemaphores canvas3.curFrame,
            Event.submitSend canvas3.imgIdx canvas3.curFrame,
            Event.swapchainPresent canvas3.curFrame]
        ++ [Event.transfersFrame canvas4.imgIdx]⟩

/-- The canvas-creation request fields `_create_canvas` reads:
`req.id`, `req.flags`, `req.content.canvas.screen_width/height`. -/
structure CreateReq where
  id : Nat
  flags : Nat
  screen_width : Nat
  screen_height : Nat
  deriving DecidableEq, Repr

/-- Oracle results `_create_canvas` reads back from collaborators: the
window's framebuffer size (set up automatically at window creation) and
the swapchain image count produced by `dvz_canvas_create`. -/
structure CreateEnv where
  fbWidth : Nat
  fbHeight : Nat
  imgCount : Nat
  deriving DecidableEq, Repr

/-- `_create_canvas(prt, req)`: decode the flag bits (the FPS and MONITOR
flags include the IMGUI bit, stripped with XOR before testing), size the
canvas from the window's framebuffer, allocate a fresh recorder, create
and register the GUI window when the overlay flag is set, and register the
flag-gated built-in FPS and monitoring overlay callbacks.  The swapchain
status is left NEED_RECREATE so the first tick synthesizes a resize
event. -/
def _create_canvas (prt : Presenter) (req : CreateReq) (env : CreateEnv) :
    Presenter × Canvas :=
  let has_gui := (req.flags &&& DVZ_CANVAS_FLAGS_IMGUI) != 0
  let has_fps := (req.flags &&& (DVZ_CANVAS_FLAGS_FPS ^^^ DVZ_CANVAS_FLAGS_IMGUI)) != 0
  let has_monitor :=
    (req.flags &&& (DVZ_CANVAS_FLAGS_MONITOR ^^^ DVZ_CANVAS_FLAGS_IMGUI)) != 0
  let canvas : Canvas :=
    { width := env.fbWidth, height := env.fbHeight, curFrame := 0,
      status := ObjStatus.needRecreate, imgIdx := 0, cmdsCount := env.imgCount,
      recorder := { count := 0, dirty := List.replicate env.imgCount true },
      frameTimeIdx := 0 }
  let prt1 :=
    if has_gui then { prt with guis := prt.guis ++ [(req.id, { id := req.id })] }
    else prt
  -- user_data 0 stands for &prt->fps, 1 for &rd->ctx->datalloc
  let prt2 := if has_fps then dvz_presenter_gui prt1 req.id CallbackRef.fps 0 else prt1
  let prt3 :=
    if has_monitor then dvz_presenter_gui prt2 req.id CallbackRef.monitoring 1 else prt2
  (prt3, canvas)

/-- `_delete_canvas(prt, id)` as a trace: GPU idle wait, canvas (and
swapchain) destruction, recorder destruction when the canvas has one,
untracking then destruction of the surface, and GUI-window destruction
when one is bound to the id.  The native window is never destroyed here
(that happens in the client's `_callback_window_delete`). -/
def _delete_canvas (recorderPresent : Bool) (guiWindowPresent : Bool) : List Event :=
  [Event.gpuWait, Event.canvasDestroy]
    ++ (if recorderPresent then [Event.recorderDestroy] else [])
    ++ [Event.surfaceUntrack, Event.surfaceDestroy]
    ++ (if guiWindowPresent then [Event.guiWindowDestroy] else [])

/-- A request batch (`DvzBatch`); only its request list is observable from
`dvz_presenter_submit`.  Individual requests are opaque here. -/
structure Batch where
  requests : List Nat
  deriving DecidableEq, Repr

/-- `dvz_batch_size(batch)`. -/
def dvz_batch_size (batch : Batch) : Nat := batch.requests.length

/-- `dvz_presenter_submit(prt, batch)`: on an empty batch, log and return
without touching any state and without emitting anything; otherwise emit a
REQUESTS event to the client's event loop (the batch is destroyed later by
`_requester_callback`, never here).  The `DVZ_VERBOSE` / `DVZ_DRP`
diagnostics are print/export hooks with no control-flow effect and are not
modelled. -/
def dvz_presenter_submit (prt : Presenter) (batch : Batch) : Presenter × List Event :=
  if dvz_batch_size batch == 0 then (prt, [])
  else (prt, [Event.clientEventRequests])

/-! ## Observation helpers over traces -/

/-- Is this event a WINDOW_RESIZE client notification? -/
def isResizeEvent : Event → Bool
  | Event.resizeEvent _ _ _ _ _ => true
  | _ => false

/-- Is this event a `dvz_transfers_frame` notification? -/
def isTransfersEvent : Event → Bool
  | Event.transfersFrame _ => true
  | _ => false

/-- The GUI callback invocations of a trace, in order, as
(callback, GUI-window id, user data) triples. -/
def guiInvocations (t : List Event) : List (CallbackRef × Nat × Nat) :=
  t.filterMap (fun e =>
    match e with
    | Event.callbackInvoke cb g ud => some (cb, g, ud)
    | _ => none)

/-- Number of built-in overlay-callback entries registered for an id. -/
def builtinCountFor (prt : Presenter) (id : Nat) : Nat :=
  (prt.callbacks.filter (fun p => p.window_id == id && p.callback.isBuiltin)).length

/-! ## Helper lemmas about trace segments -/

lemma _record_command_filter_resize (rec : Recorder) (i : Nat) :
    ((_record_command rec i).2).filter isResizeEvent = [] := by
  unfold _record_command
  split <;> rfl

lemma recordAll_filter_resize (rec : Recorder) :
    ∀ n, ((recordAll rec n).2).filter isResizeEvent = [] := by
  intro n
  induction n with
  | zero => rfl
  | succ n ih =>
    simp only [recordAll, List.filter_append, ih, _record_command_filter_resize,
      List.nil_append]

lemma guiInvokeLoop_filter_resize (l : List Payload) (g : Nat) :
    (guiInvokeLoop l g).filter isResizeEvent = [] := by
  induction l with
  | nil => rfl
  | cons p rest ih =>
    simp only [guiInvokeLoop, List.filter_append, ih, List.append_nil]
    split <;> rfl

lemma _gui_callback_filter_resize (l : List Payload) (g : GuiWindow) (i : Nat) :
    ((_gui_callback l g i)).filter isResizeEvent = [] := by
  simp only [_gui_callback, List.filter_append, guiInvokeLoop_filter_resize]
  rfl

lemma _record_command_invocations (rec : Recorder) (i : Nat) :
    guiInvocations (_record_command rec i).2 = [] := by
  unfold _record_command
  split <;> rfl

lemma recordAll_invocations (rec : Recorder) :
    ∀ n, guiInvocations (recordAll rec n).2 = [] := by
  intro n
  induction n with
  | zero => rfl
  | succ n ih =>
    simp only [recordAll, guiInvocations, List.filterMap_append]
    simp only [guiInvocations] at ih
    rw [ih, List.nil_append]
    have := _record_command_invocations rec n
    simp only [guiInvocations] at this ⊢
    exact _record_command_invocations (recordAll rec n).1 n

lemma guiInvokeLoop_invocations (l : List Payload) (g : Nat) :
    guiInvocations (guiInvokeLoop l g) =
      (l.filter (fun p => p.window_id == g)).map
        (fun p => (p.callback, g, p.user_data)) := by
  induction l with
  | nil => rfl
  | cons p rest ih =>
    simp only [guiInvokeLoop, guiInvocations, List.filterMap_append, List.filter_cons]
    by_cases h : (p.window_id == g) = true
    · simp [h, guiInvocations] at ih ⊢
      exact ih
    · simp [h, guiInvocations] at ih ⊢
      exact ih

lemma mem_recordAll_recorderSet (rec : Recorder) :
    ∀ n i, i < n → Event.recorderSet i ∈ (recordAll rec n).2 := by
  intro n
  induction n with
  | zero => intro i h; omega
  | succ n ih =>
    intro i h
    simp only [recordAll]
    rcases Nat.lt_succ_iff_lt_or_eq.mp h with h' | rfl
    · exact List.mem_append_left _ (ih i h')
    · apply List.mem_append_right
      unfold _record_command
      split <;> simp

/-! ## Claim theorems -/

/-- C1 (counterexample): the claim says the transfer/upload subsystem is
notified on every branch, including Invalid.  On a concrete tick whose
acquisition reports an INVALID swapchain, `dvz_presenter_frame` returns
right after the GPU wait and the trace contains no `dvz_transfers_frame`
call at all. -/
theorem invalid_branch_skips_transfers :
    ((dvz_presenter_frame { callbacks := [], guis := [] } 1
        { width := 800, height := 600, curFrame := 0, status := ObjStatus.valid,
          imgIdx := 0, cmdsCount := 3,
          recorder := { count := 0, dirty := [true, true, true] }, frameTimeIdx := 0 }
        { width := 800, height := 600 }
        { acquiredStatus := ObjStatus.invalid, acquiredImgIdx := 0,
          polledScreenW := 800, polledScreenH := 600,
          recreatedFbW := 800, recreatedFbH := 600 }).trace).filter
      isTransfersEvent = [] := by
  rfl

/-- C1 (amended): on every tick whose acquired swapchain status is not
INVALID (i.e. the NeedsRecreate and Ready branches), the very last
collaborator call before `dvz_presenter_frame` returns is the
transfer-subsystem notification carrying this tick's acquired image
index; the Invalid branch returns early without it. -/
theorem transfers_notified_unless_invalid (prt : Presenter) (windowId : Nat)
    (canvas : Canvas) (window : Window) (env : FrameEnv)
    (h : env.acquiredStatus ≠ ObjStatus.invalid) :
    ((dvz_presenter_frame prt windowId canvas window env).trace).getLast? =
      some (Event.transfersFrame env.acquiredImgIdx) := by
  cases hs : env.acquiredStatus with
  | invalid => exact absurd hs h
  | needRecreate =>
    simp only [dvz_presenter_frame, hs, List.getLast?_concat]
  | valid =>
    simp only [dvz_presenter_frame, hs, List.getLast?_concat]

/-- C1 (witness for the amended theorem). -/
theorem transfers_notified_unless_invalid_witness :
    ((dvz_presenter_frame { callbacks := [], guis := [] } 1
        { width := 800, height := 600, curFrame := 0, status := ObjStatus.valid,
          imgIdx := 0, cmdsCount := 3,
          recorder := { count := 0, dirty := [true, true, true] }, frameTimeIdx := 0 }
        { width := 800, height := 600 }
        { acquiredStatus := ObjStatus.valid, acquiredImgIdx := 2,
          polledScreenW := 800, polledScreenH := 600,
          recreatedFbW := 800, recreatedFbH := 600 }).trace).getLast? =
      some (Event.transfersFrame 2) :=
  transfers_notified_unless_invalid _ _ _ _ _ (by decide)

/-- C2: the fence waited on at the start of every tick, before image
acquisition, is the one for slot `(cur_frame + 1) % DVZ_MAX_FRAMES_IN_FLIGHT`
— the next slot to be reused — which differs from `cur_frame` itself
whenever `cur_frame` is a valid slot index. -/
theorem fence_wait_next_slot (prt : Presenter) (windowId : Nat)
    (canvas : Canvas) (window : Window) (env : FrameEnv)
    (h : canvas.curFrame < DVZ_MAX_FRAMES_IN_FLIGHT) :
    ((dvz_presenter_frame prt windowId canvas window env).trace).take 2 =
      [Event.fencesWait ((canvas.curFrame + 1) % DVZ_MAX_FRAMES_IN_FLIGHT),
       Event.swapchainAcquire canvas.curFrame]
    ∧ (canvas.curFrame + 1) % DVZ_MAX_FRAMES_IN_FLIGHT ≠ canvas.curFrame := by
  constructor
  · cases hs : env.acquiredStatus <;> simp only [dvz_presenter_frame, hs] <;> rfl
  · simp only [DVZ_MAX_FRAMES_IN_FLIGHT] at h ⊢
    omega

/-- C2 (witness). -/
theorem fence_wait_next_slot_witness :
    (((dvz_presenter_frame { callbacks := [], guis := [] } 1
        { width := 800, height := 600, curFrame := 0, status := ObjStatus.valid,
          imgIdx := 0, cmdsCount := 3,
          recorder := { count := 0, dirty := [true, true, true] }, frameTimeIdx := 0 }
        { width := 800, height := 600 }
        { acquiredStatus := ObjStatus.valid, acquiredImgIdx := 0,
          polledScreenW := 800, polledScreenH := 600,
          recreatedFbW := 800, recreatedFbH := 600 }).trace).take 2 =
      [Event.fencesWait 1, Event.swapchainAcquire 0])
    ∧ (0 + 1) % DVZ_MAX_FRAMES_IN_FLIGHT ≠ 0 :=
  fence_wait_next_slot _ _ _ _ _ (by decide)

/-- C8: deleting an existing canvas performs, in this strict order, the
blocking GPU idle wait, canvas (swapchain/backend) destruction, recorder
destruction, surface untracking then surface destruction, and finally
GUI-window destruction when one is bound — and never destroys the native
window handle itself. -/
theorem delete_canvas_teardown_order (g : Bool) :
    (_delete_canvas true g =
      [Event.gpuWait, Event.canvasDestroy, Event.recorderDestroy,
       Event.surfaceUntrack, Event.surfaceDestroy]
        ++ (if g then [Event.guiWindowDestroy] else []))
    ∧ ∀ r : Bool, Event.windowDestroy ∉ _delete_canvas r g := by
  constructor
  · cases g <;> rfl
  · intro r
    cases r <;> cases g <;> decide

/-- C10: submitting a batch with zero requests is a no-op: the presenter
state is unchanged and no event (in particular no REQUESTS event, hence no
downstream request application or batch destruction) is emitted. -/
theorem submit_empty_batch_noop (prt : Presenter) (batch : Batch)
    (h : dvz_batch_size batch = 0) :
    dvz_presenter_submit prt batch = (prt, []) := by
  simp [dvz_presenter_submit, h]

/-- C10 (witness). -/
theorem submit_empty_batch_noop_witness :
    dvz_presenter_submit { callbacks := [], guis := [] } { requests := [] } =
      ({ callbacks := [], guis := [] }, []) :=
  submit_empty_batch_noop _ _ (by decide)

/-- C3: on every tick observing a NEED_RECREATE swapchain status, before
the tick returns the recorder's dirty bits are all set
(`dvz_recorder_set_dirty`) and every one of the `cmds->count` command
buffers — not only the acquired image's — is re-recorded
(`dvz_recorder_set` runs for every image index) within that same tick. -/
theorem recreate_rerecords_all (prt : Presenter) (windowId : Nat)
    (canvas : Canvas) (window : Window) (env : FrameEnv)
    (h : env.acquiredStatus = ObjStatus.needRecreate) :
    Event.recorderSetDirty ∈ (dvz_presenter_frame prt windowId canvas window env).trace
    ∧ (List.range canvas.cmdsCount).map Event.recorderSet ⊆
        (dvz_presenter_frame prt windowId canvas window env).trace := by
  constructor
  · simp [dvz_presenter_frame, h]
  · intro a ha
    simp only [List.mem_map, List.mem_range] at ha
    obtain ⟨i, hi, rfl⟩ := ha
    simp only [dvz_presenter_frame, h]
    exact List.mem_append_left _ (List.mem_append_right _
      (mem_recordAll_recorderSet _ _ i hi))

/-- C3 (witness): a 3-image canvas driven through the NeedsRecreate
branch sets all dirty bits and re-records images 0, 1 and 2. -/
theorem recreate_rerecords_all_witness :
    Event.recorderSetDirty ∈ (dvz_presenter_frame { callbacks := [], guis := [] } 1
        { width := 800, height := 600, curFrame := 0, status := ObjStatus.valid,
          imgIdx := 0, cmdsCount := 3,
          recorder := { count := 5, dirty := [false, false, false] }, frameTimeIdx := 0 }
        { width := 800, height := 600 }
        { acquiredStatus := ObjStatus.needRecreate, acquiredImgIdx := 1,
          polledScreenW := 810, polledScreenH := 610,
          recreatedFbW := 820, recreatedFbH := 620 }).trace
    ∧ (List.range 3).map Event.recorderSet ⊆
        (dvz_presenter_frame { callbacks := [], guis := [] } 1
        { width := 800, height := 600, curFrame := 0, status := ObjStatus.valid,
          imgIdx := 0, cmdsCount := 3,
          recorder := { count := 5, dirty := [false, false, false] }, frameTimeIdx := 0 }
        { width := 800, height := 600 }
        { acquiredStatus := ObjStatus.needRecreate, acquiredImgIdx := 1,
          polledScreenW := 810, polledScreenH := 610,
          recreatedFbW := 820, recreatedFbH := 620 }).trace :=
  recreate_rerecords_all _ _ _ _ _ (by decide)

/-- C4: the WINDOW_RESIZE notification to the client is emitted exactly
once on a NeedsRecreate tick — carrying the window id, the recreated
canvas's framebuffer size and the polled window's logical/screen size —
and never on an Invalid or Ready tick. -/
theorem resize_notification_iff_recreate (prt : Presenter) (windowId : Nat)
    (canvas : Canvas) (window : Window) (env : FrameEnv) :
    ((dvz_presenter_frame prt windowId canvas window env).trace).filter isResizeEvent =
      (if env.acquiredStatus = ObjStatus.needRecreate then
        [Event.resizeEvent windowId env.recreatedFbW env.recreatedFbH
           env.polledScreenW env.polledScreenH]
      else []) := by
  cases hs : env.acquiredStatus with
  | invalid => simp [dvz_presenter_frame, hs, isResizeEvent]
  | needRecreate =>
    simp only [dvz_presenter_frame, hs, List.filter_append, recordAll_filter_resize]
    cases mapGet prt.guis windowId <;>
      simp [isResizeEvent]
  | valid =>
    simp only [dvz_presenter_frame, hs, List.filter_append]
    cases hd : dvz_recorder_is_dirty canvas.recorder env.acquiredImgIdx <;>
      cases hgw : mapGet prt.guis windowId <;>
      simp [hd, isResizeEvent, _record_command_filter_resize, _gui_callback_filter_resize,
        apply_ite (List.filter isResizeEvent)]

lemma guiInvocations_append (a b : List Event) :
    guiInvocations (a ++ b) = guiInvocations a ++ guiInvocations b := by
  simp [guiInvocations, List.filterMap_append]

lemma _gui_callback_invocations (l : List Payload) (g : GuiWindow) (i : Nat) :
    guiInvocations (_gui_callback l g i) =
      (l.filter (fun p => p.window_id == g.id)).map
        (fun p => (p.callback, g.id, p.user_data)) := by
  have h := guiInvokeLoop_invocations l g.id
  simp only [_gui_callback, guiInvocations_append, h]
  simp [guiInvocations]

/-- C5: on a tick that reaches overlay composition (Ready branch, GUI
window bound, non-empty callback list), the callbacks invoked are exactly
the registered entries whose target id equals the surface's id, in
registration order, each receiving the surface's GUI window and its own
user data — and registration (`dvz_presenter_gui`) appends
unconditionally, so one id may accumulate arbitrarily many entries. -/
theorem gui_callbacks_filtered (prt : Presenter) (windowId : Nat)
    (canvas : Canvas) (window : Window) (env : FrameEnv)
    (p2 : Presenter) (wid2 : Nat) (cb : CallbackRef) (ud : Nat)
    (hg : mapGet prt.guis windowId = some { id := windowId })
    (hcb : prt.callbacks ≠ [])
    (hs : env.acquiredStatus = ObjStatus.valid) :
    guiInvocations (dvz_presenter_frame prt windowId canvas window env).trace =
      (prt.callbacks.filter (fun p => p.window_id == windowId)).map
        (fun p => (p.callback, windowId, p.user_data))
    ∧ (dvz_presenter_gui p2 wid2 cb ud).callbacks =
        p2.callbacks ++ [{ window_id := wid2, callback := cb, user_data := ud }] := by
  refine ⟨?_, rfl⟩
  have hlen : prt.callbacks.length > 0 := List.length_pos.mpr hcb
  simp only [dvz_presenter_frame, hs, hg, hlen, if_true]
  cases hd : dvz_recorder_is_dirty canvas.recorder env.acquiredImgIdx <;>
    simp only [hd, Bool.false_eq_true, if_false, if_true, guiInvocations_append,
      _record_command_invocations, _gui_callback_invocations] <;>
    simp [guiInvocations]

/-- C5 (witness): Scenario C — three callbacks registered for id 1 and one
for id 2; a tick for id 1 invokes exactly the three id-1 callbacks in
registration order, and appending via `dvz_presenter_gui` is
unconditional. -/
theorem gui_callbacks_filtered_witness :
    guiInvocations (dvz_presenter_frame
        { callbacks := [{ window_id := 1, callback := CallbackRef.user 10, user_data := 100 },
                        { window_id := 1, callback := CallbackRef.user 11, user_data := 101 },
                        { window_id := 2, callback := CallbackRef.user 20, user_data := 200 },
                        { window_id := 1, callback := CallbackRef.user 12, user_data := 102 }],
          guis := [(1, { id := 1 })] } 1
        { width := 800, height := 600, curFrame := 0, status := ObjStatus.valid,
          imgIdx := 0, cmdsCount := 3,
          recorder := { count := 4, dirty := [false, false, false] }, frameTimeIdx := 0 }
        { width := 800, height := 600 }
        { acquiredStatus := ObjStatus.valid, acquiredImgIdx := 0,
          polledScreenW := 800, polledScreenH := 600,
          recreatedFbW := 800, recreatedFbH := 600 }).trace =
      [(CallbackRef.user 10, 1, 100), (CallbackRef.user 11, 1, 101),
       (CallbackRef.user 12, 1, 102)]
    ∧ (dvz_presenter_gui { callbacks := [], guis := [] } 7 (CallbackRef.user 3) 42).callbacks =
        [] ++ [{ window_id := 7, callback := CallbackRef.user 3, user_data := 42 }] :=
  gui_callbacks_filtered _ _ _ _ _ _ _ _ _ (by decide) (by decide) (by decide)

/-- C6: creating a canvas with the overlay flag plus both the frame-rate
and resource-usage sub-overlay flags registers exactly 2 built-in
overlay-callback entries for the canvas id on top of whatever was already
registered; with the overlay flag alone it registers none. -/
theorem builtin_overlay_registration (prt : Presenter) (id w h : Nat) (env : CreateEnv) :
    builtinCountFor
        (_create_canvas prt
          { id := id,
            flags := DVZ_CANVAS_FLAGS_IMGUI ||| DVZ_CANVAS_FLAGS_FPS |||
              DVZ_CANVAS_FLAGS_MONITOR,
            screen_width := w, screen_height := h } env).1 id
      = builtinCountFor prt id + 2
    ∧ builtinCountFor
        (_create_canvas prt
          { id := id, flags := DVZ_CANVAS_FLAGS_IMGUI,
            screen_width := w, screen_height := h } env).1 id
      = builtinCountFor prt id := by
  constructor <;>
    simp [_create_canvas, dvz_presenter_gui, builtinCountFor,
      DVZ_CANVAS_FLAGS_IMGUI, DVZ_CANVAS_FLAGS_FPS, DVZ_CANVAS_FLAGS_MONITOR,
      CallbackRef.isBuiltin, List.filter_append]

/-- C7: a Ready tick whose recorder caches zero drawing operations and
whose acquired image is dirty records blank (clear/no-op) commands for
that image and still completes through submission and presentation. -/
theorem blank_commands_on_empty_recorder (prt : Presenter) (windowId : Nat)
    (canvas : Canvas) (window : Window) (env : FrameEnv)
    (hs : env.acquiredStatus = ObjStatus.valid)
    (hc : canvas.recorder.count = 0)
    (hd : dvz_recorder_is_dirty canvas.recorder env.acquiredImgIdx = true) :
    Event.blankCommands env.acquiredImgIdx ∈
        (dvz_presenter_frame prt windowId canvas window env).trace
    ∧ Event.submitSend env.acquiredImgIdx canvas.curFrame ∈
        (dvz_presenter_frame prt windowId canvas window env).trace
    ∧ Event.swapchainPresent canvas.curFrame ∈
        (dvz_presenter_frame prt windowId canvas window env).trace := by
  simp only [dvz_presenter_frame, hs]
  refine ⟨?_, ?_, ?_⟩ <;>
    cases hgw : mapGet prt.guis windowId <;>
      simp [hd, hc, _record_command]

/-- C7 (witness): Scenario D — empty recorder, dirty acquired image. -/
theorem blank_commands_on_empty_recorder_witness :
    Event.blankCommands 1 ∈
        (dvz_presenter_frame { callbacks := [], guis := [] } 1
          { width := 800, height := 600, curFrame := 0, status := ObjStatus.valid,
            imgIdx := 0, cmdsCount := 3,
            recorder := { count := 0, dirty := [true, true, true] }, frameTimeIdx := 0 }
          { width := 800, height := 600 }
          { acquiredStatus := ObjStatus.valid, acquiredImgIdx := 1,
            polledScreenW := 800, polledScreenH := 600,
            recreatedFbW := 800, recreatedFbH := 600 }).trace
    ∧ Event.submitSend 1 0 ∈
        (dvz_presenter_frame { callbacks := [], guis := [] } 1
          { width := 800, height := 600, curFrame := 0, status := ObjStatus.valid,
            imgIdx := 0, cmdsCount := 3,
            recorder := { count := 0, dirty := [true, true, true] }, frameTimeIdx := 0 }
          { width := 800, height := 600 }
          { acquiredStatus := ObjStatus.valid, acquiredImgIdx := 1,
            polledScreenW := 800, polledScreenH := 600,
            recreatedFbW := 800, recreatedFbH := 600 }).trace
    ∧ Event.swapchainPresent 0 ∈
        (dvz_presenter_frame { callbacks := [], guis := [] } 1
          { width := 800, height := 600, curFrame := 0, status := ObjStatus.valid,
            imgIdx := 0, cmdsCount := 3,
            recorder := { count := 0, dirty := [true, true, true] }, frameTimeIdx := 0 }
          { width := 800, height := 600 }
          { acquiredStatus := ObjStatus.valid, acquiredImgIdx := 1,
            polledScreenW := 800, polledScreenH := 600,
            recreatedFbW := 800, recreatedFbH := 600 }).trace :=
  blank_commands_on_empty_recorder _ _ _ _ _ (by decide) (by decide) (by decide)

/-- C9: on a Ready tick of a surface with a bound GUI window, the overlay
recording phase runs whenever the presenter's global callback list is
non-empty — overlay begin/end are recorded for the acquired image and the
GUI command buffer is appended to the submission — regardless of whether
any registered callback targets this surface's id. -/
theorem overlay_runs_when_callbacks_nonempty (prt : Presenter) (windowId : Nat)
    (canvas : Canvas) (window : Window) (env : FrameEnv)
    (hg : (mapGet prt.guis windowId).isSome = true)
    (hcb : prt.callbacks.length > 0)
    (hs : env.acquiredStatus = ObjStatus.valid) :
    Event.guiWindowBegin env.acquiredImgIdx ∈
        (dvz_presenter_frame prt windowId canvas window env).trace
    ∧ Event.guiWindowEnd env.acquiredImgIdx ∈
        (dvz_presenter_frame prt windowId canvas window env).trace
    ∧ Event.submitCommands CmdSource.gui ∈
        (dvz_presenter_frame prt windowId canvas window env).trace := by
  obtain ⟨g, hg⟩ := Option.isSome_iff_exists.mp hg
  simp only [dvz_presenter_frame, hs, hg, hcb, if_true]
  refine ⟨?_, ?_, ?_⟩ <;>
    cases hd : dvz_recorder_is_dirty canvas.recorder env.acquiredImgIdx <;>
      simp [hd, _record_command, _gui_callback]

/-- C9 (witness): the single registered callback targets id 2, not this
surface's id 1, yet the overlay pass is still recorded and submitted. -/
theorem overlay_runs_when_callbacks_nonempty_witness :
    Event.guiWindowBegin 0 ∈
        (dvz_presenter_frame
          { callbacks := [{ window_id := 2, callback := CallbackRef.user 9, user_data := 0 }],
            guis := [(1, { id := 1 })] } 1
          { width := 800, height := 600, curFrame := 0, status := ObjStatus.valid,
            imgIdx := 0, cmdsCount := 3,
            recorder := { count := 1, dirty := [false, false, false] }, frameTimeIdx := 0 }
          { width := 800, height := 600 }
          { acquiredStatus := ObjStatus.valid, acquiredImgIdx := 0,
            polledScreenW := 800, polledScreenH := 600,
            recreatedFbW := 800, recreatedFbH := 600 }).trace
    ∧ Event.guiWindowEnd 0 ∈
        (dvz_presenter_frame
          { callbacks := [{ window_id := 2, callback := CallbackRef.user 9, user_data := 0 }],
            guis := [(1, { id := 1 })] } 1
          { width := 800, height := 600, curFrame := 0, status := ObjStatus.valid,
            imgIdx := 0, cmdsCount := 3,
            recorder := { count := 1, dirty := [false, false, false] }, frameTimeIdx := 0 }
          { width := 800, height := 600 }
          { acquiredStatus := ObjStatus.valid, acquiredImgIdx := 0,
            polledScreenW := 800, polledScreenH := 600,
            recreatedFbW := 800, recreatedFbH := 600 }).trace
    ∧ Event.submitCommands CmdSource.gui ∈
        (dvz_presenter_frame
          { callbacks := [{ window_id := 2, callback := CallbackRef.user 9, user_data := 0 }],
            guis := [(1, { id := 1 })] } 1
          { width := 800, height := 600, curFrame := 0, status := ObjStatus.valid,
            imgIdx := 0, cmdsCount := 3,
            recorder := { count := 1, dirty := [false, false, false] }, frameTimeIdx := 0 }
          { width := 800, height := 600 }
          { acquiredStatus := ObjStatus.valid, acquiredImgIdx := 0,
            polledScreenW := 800, polledScreenH := 600,
            recreatedFbW := 800, recreatedFbH := 600 }).trace :=
  overlay_runs_when_callbacks_nonempty _ _ _ _ _ (by decide) (by decide) (by decide)

end Datoviz
